import Mathlib

/-!
Verification development for the chatre1 worker (Cloudflare Workers AI chat +
image app).  We shallowly embed the two server handlers of `src/src/index.ts`
(the later, authoritative declarations in that file), and the browser-side
streaming consumer `sendMessage` of `src/public/chat.js`, together with the
platform primitives they rely on (`JSON.parse`, `TextDecoder` with
`stream: true` per the WHATWG UTF-8 decoder, `btoa`/`String.fromCharCode`,
`String.prototype.trim`, `String.prototype.split`).
-/

set_option maxRecDepth 8000

namespace Chatre

/-! ### JavaScript runtime values

A model of the values produced by `JSON.parse` and passed around the
handlers.  Numbers keep the digits of their literal (the handlers only ever
test numbers for truthiness, never format them). -/

structure NumLit where
  neg : Bool
  intPart : List Char
  fracPart : List Char
  expNeg : Bool
  expDigits : List Char
deriving Repr, DecidableEq

inductive Json where
  | jnull : Json
  | jbool : Bool → Json
  | jnum : NumLit → Json
  | jstr : List Char → Json
  | jarr : List Json → Json
  | jobj : List (List Char × Json) → Json

def digitsToNat (ds : List Char) : Nat :=
  ds.foldl (fun acc c => acc * 10 + (c.toNat - 48)) 0

/-- Does `M × 10^(-e)` round to zero as an IEEE-754 double?  It does iff it
is at most `2^(-1075)`, half the least subnormal: round-to-nearest-even
sends the exact tie to the even significand, zero.  Since `2^1075 < 10^324`
and `M < 10^digitCount`, any `e ≥ digitCount + 324` underflows without the
big powers being computed. -/
def underflowsToZero (M e digitCount : Nat) : Bool :=
  if digitCount + 324 ≤ e then true
  else if M * 2 ^ 1075 ≤ 10 ^ e then true
  else false

/-- Is the double a JSON number literal parses to equal to zero?  JS
truthiness is of the parsed IEEE-754 value, so an underflowing literal such
as `1e-400` is falsy even though it has a nonzero digit.  The value is
`M × 10^E` with `M` the digits of the integer and fraction parts and
`E` the (signed) exponent minus the fraction length; it is zero iff `M = 0`
or `E < 0` and the magnitude underflows.  The conversion is modelled as
correctly rounded (ECMA-262 permits zeroing digits after the 20th
significant one, which could only matter on the exact underflow tie written
with more than 20 significant digits). -/
def numLitIsZero (n : NumLit) : Bool :=
  let M := digitsToNat (n.intPart ++ n.fracPart)
  let digitCount := n.intPart.length + n.fracPart.length
  let expVal := digitsToNat n.expDigits
  if M == 0 then true
  else if n.expNeg then underflowsToZero M (expVal + n.fracPart.length) digitCount
  else if expVal < n.fracPart.length then
    underflowsToZero M (n.fracPart.length - expVal) digitCount
  else false

/-- JS truthiness (`if (v)`): `null`, `false`, `0` (including a number
whose literal underflows to zero), and `""` are falsy. -/
def jsTruthy : Json → Bool
  | Json.jnull => false
  | Json.jbool b => b
  | Json.jnum n => !(numLitIsZero n)
  | Json.jstr s => !(s.isEmpty)
  | Json.jarr _ => true
  | Json.jobj _ => true

/-- JS property lookup on an object literal: with duplicate keys (which
`JSON.parse` can produce) the last occurrence wins. -/
def lookupLast (key : List Char) : List (List Char × Json) → Option Json
  | [] => none
  | p :: rest =>
    match lookupLast key rest with
    | some v => some v
    | none => if p.1 == key then some p.2 else none

/-- Property access `v.key`: objects look the key up, every other value
yields `undefined` (modelled as `none`). -/
def getField (j : Json) (key : List Char) : Option Json :=
  match j with
  | Json.jobj fields => lookupLast key fields
  | _ => none

def jsIsString : Json → Bool
  | Json.jstr _ => true
  | _ => false

/-! ### JSON.parse

A recursive-descent model of `JSON.parse` over a character list, faithful to
the JSON grammar (whitespace, the three literals, strings with escapes,
numbers, arrays, objects; the whole input must be consumed up to trailing
whitespace).  Model limitation: a `\u` escape in the surrogate range
(D800–DFFF) is rejected, where JS would keep a lone UTF-16 surrogate that a
Lean `Char` cannot represent. -/

def isJsonWsChar (c : Char) : Bool :=
  c == ' ' || c == '\t' || c == '\n' || c == '\r'

def skipJsonWs (l : List Char) : List Char :=
  List.dropWhile isJsonWsChar l

def isDigitChar (c : Char) : Bool :=
  48 ≤ c.toNat && c.toNat ≤ 57

/-- Value of a hex digit, by code point: `0`–`9`, `a`–`f`, `A`–`F`. -/
def hexVal (c : Char) : Option Nat :=
  let n := c.toNat
  if 48 ≤ n && n ≤ 57 then some (n - 48)
  else if 97 ≤ n && n ≤ 102 then some (n - 87)
  else if 65 ≤ n && n ≤ 70 then some (n - 55)
  else none

def escChar (e : Char) : Option Char :=
  if e == '"' then some '"'
  else if e == '\\' then some '\\'
  else if e == '/' then some '/'
  else if e == 'b' then some (Char.ofNat 8)
  else if e == 'f' then some (Char.ofNat 12)
  else if e == 'n' then some '\n'
  else if e == 'r' then some '\r'
  else if e == 't' then some '\t'
  else none

def consParsed (c : Char) : Option (List Char × List Char) → Option (List Char × List Char)
  | some p => some (c :: p.1, p.2)
  | none => none

/-- Body of a JSON string after the opening quote, up to and including the
closing quote. -/
def parseStringBody : Nat → List Char → Option (List Char × List Char)
  | 0, _ => none
  | _, [] => none
  | fuel + 1, c :: rest =>
    if c == '"' then some ([], rest)
    else if c == '\\' then
      match rest with
      | [] => none
      | 'u' :: h1 :: h2 :: h3 :: h4 :: rest2 =>
        match hexVal h1, hexVal h2, hexVal h3, hexVal h4 with
        | some a, some b, some cc, some d =>
          let n := ((a * 16 + b) * 16 + cc) * 16 + d
          if 0xD800 ≤ n && n ≤ 0xDFFF then none
          else consParsed (Char.ofNat n) (parseStringBody fuel rest2)
        | _, _, _, _ => none
      | e :: rest2 =>
        match escChar e with
        | some c2 => consParsed c2 (parseStringBody fuel rest2)
        | none => none
    else if c.toNat < 0x20 then none
    else consParsed c (parseStringBody fuel rest)

/-- Split off the leading run of decimal digits. -/
def digitSpan : List Char → List Char × List Char
  | [] => ([], [])
  | c :: rest =>
    match isDigitChar c, digitSpan rest with
    | true, p => (c :: p.1, p.2)
    | false, _ => ([], c :: rest)

/-- JSON number grammar: `-? int frac? exp?`, with no leading zeros. -/
def parseNumber (l : List Char) : Option (NumLit × List Char) :=
  let negSplit : Bool × List Char :=
    match l with
    | '-' :: rest => (true, rest)
    | _ => (false, l)
  let neg := negSplit.1
  let afterNeg := negSplit.2
  let ip := digitSpan afterNeg
  if ip.1.isEmpty then none
  else if ip.1.length > 1 && ip.1.headD '0' == '0' then none
  else
    let fracSplit : Option (List Char) × List Char :=
      match ip.2 with
      | '.' :: rest =>
        let fp := digitSpan rest
        if fp.1.isEmpty then (none, ip.2) else (some fp.1, fp.2)
      | _ => (some [], ip.2)
    match fracSplit.1 with
    | none => none
    | some fracDigits =>
      let afterFrac := fracSplit.2
      match afterFrac with
      | 'e' :: rest => parseNumberExp neg ip.1 fracDigits rest
      | 'E' :: rest => parseNumberExp neg ip.1 fracDigits rest
      | _ => some (NumLit.mk neg ip.1 fracDigits false [], afterFrac)
where
  parseNumberExp (neg : Bool) (ipart fpart : List Char) (l2 : List Char) :
      Option (NumLit × List Char) :=
    let expSplit : Bool × List Char :=
      match l2 with
      | '-' :: rest => (true, rest)
      | '+' :: rest => (false, rest)
      | _ => (false, l2)
    let ed := digitSpan expSplit.2
    if ed.1.isEmpty then none
    else some (NumLit.mk neg ipart fpart expSplit.1 ed.1, ed.2)

mutual

def parseValue : Nat → List Char → Option (Json × List Char)
  | 0, _ => none
  | fuel + 1, input =>
    match skipJsonWs input with
    | 'n' :: 'u' :: 'l' :: 'l' :: rest => some (Json.jnull, rest)
    | 't' :: 'r' :: 'u' :: 'e' :: rest => some (Json.jbool true, rest)
    | 'f' :: 'a' :: 'l' :: 's' :: 'e' :: rest => some (Json.jbool false, rest)
    | '"' :: rest =>
      match parseStringBody (rest.length + 1) rest with
      | some p => some (Json.jstr p.1, p.2)
      | none => none
    | '[' :: rest =>
      match skipJsonWs rest with
      | ']' :: r => some (Json.jarr [], r)
      | r2 =>
        match parseElements fuel r2 with
        | some p => some (Json.jarr p.1, p.2)
        | none => none
    | '{' :: rest =>
      match skipJsonWs rest with
      | '}' :: r => some (Json.jobj [], r)
      | r2 =>
        match parseMembers fuel r2 with
        | some p => some (Json.jobj p.1, p.2)
        | none => none
    | c :: rest =>
      if c == '-' || isDigitChar c then
        match parseNumber (c :: rest) with
        | some p => some (Json.jnum p.1, p.2)
        | none => none
      else none
    | [] => none

def parseElements : Nat → List Char → Option (List Json × List Char)
  | 0, _ => none
  | fuel + 1, input =>
    match parseValue fuel input with
    | none => none
    | some p =>
      match skipJsonWs p.2 with
      | ',' :: r =>
        match parseElements fuel r with
        | some q => some (p.1 :: q.1, q.2)
        | none => none
      | ']' :: r => some ([p.1], r)
      | _ => none

def parseMembers : Nat → List Char → Option (List (List Char × Json) × List Char)
  | 0, _ => none
  | fuel + 1, input =>
    match skipJsonWs input with
    | '"' :: rest =>
      match parseStringBody (rest.length + 1) rest with
      | none => none
      | some kp =>
        match skipJsonWs kp.2 with
        | ':' :: r =>
          match parseValue fuel r with
          | none => none
          | some vp =>
            match skipJsonWs vp.2 with
            | ',' :: r2 =>
              match parseMembers fuel r2 with
              | some q => some ((kp.1, vp.1) :: q.1, q.2)
              | none => none
            | '}' :: r2 => some ([(kp.1, vp.1)], r2)
            | _ => none
        | _ => none
    | _ => none

end

/-- `JSON.parse` on a whole line: the value must consume the entire input up
to trailing whitespace, otherwise the parse throws (modelled as `none`). -/
def jsonParse (l : List Char) : Option Json :=
  match parseValue (2 * l.length + 2) l with
  | some p => if (skipJsonWs p.2).isEmpty then some p.1 else none
  | none => none

/-! ### JS string coercion

`responseText += jsonData.response` coerces the field with JS `ToString`.
Number formatting follows the digits of the numeric literal (JS re-formats
the IEEE double; the two agree on the plain decimal literals the gateway
emits). -/

def nullChars : List Char := "null".toList

def trueChars : List Char := "true".toList

def falseChars : List Char := "false".toList

def objectObjectChars : List Char := "[object Object]".toList

def numLitToStr (n : NumLit) : List Char :=
  (if n.neg && !(numLitIsZero n) then ['-'] else []) ++
  n.intPart ++
  (if n.fracPart.isEmpty then [] else '.' :: n.fracPart) ++
  (if n.expDigits.isEmpty then []
   else 'e' :: ((if n.expNeg then ['-'] else ['+']) ++ n.expDigits))

mutual

def jsToStr : Json → List Char
  | Json.jnull => nullChars
  | Json.jbool true => trueChars
  | Json.jbool false => falseChars
  | Json.jnum n => numLitToStr n
  | Json.jstr s => s
  | Json.jarr xs => jsArrToStr xs
  | Json.jobj _ => objectObjectChars

def jsArrToStr : List Json → List Char
  | [] => []
  | [Json.jnull] => []
  | [x] => jsToStr x
  | Json.jnull :: xs => ',' :: jsArrToStr xs
  | x :: xs => jsToStr x ++ ',' :: jsArrToStr xs

end

/-! ### The streaming response consumer (`sendMessage` in `src/public/chat.js`)

Per transport chunk the code runs
`decoder.decode(value, { stream: true })` (WHATWG UTF-8 decoder, carrying a
partial code point across calls), then `chunk.split("\n")`, then per line
`JSON.parse` inside `try`, appending `jsonData.response` when truthy and
ignoring parse failures.  Note the line split is per chunk: an incomplete
trailing line is NOT carried over to the next chunk. -/

/-- `String.prototype.split` with separator `"\n"`. -/
def splitLines : List Char → List (List Char)
  | [] => [[]]
  | c :: rest =>
    if c == '\n' then [] :: splitLines rest
    else
      match splitLines rest with
      | [] => [[c]]
      | l :: ls => (c :: l) :: ls

def responseKey : List Char := "response".toList

/-- What one SSE line adds to `responseText`: parse it as JSON; on success,
if the `response` field is truthy append its coercion; otherwise nothing. -/
def lineContribution (line : List Char) : List Char :=
  match jsonParse line with
  | none => []
  | some j =>
    match getField j responseKey with
    | some v => if jsTruthy v then jsToStr v else []
    | none => []

/-- The `for (const line of lines)` loop body, accumulated. -/
def processLines : List (List Char) → List Char
  | [] => []
  | l :: ls => lineContribution l ++ processLines ls

/-! #### WHATWG UTF-8 decoder (`TextDecoder`, default `utf-8`, fatal off)

State and step function exactly as in the WHATWG Encoding standard's UTF-8
decoder; `decode(value, { stream: true })` runs the step over the chunk's
bytes, keeping the state for the next call and never flushing a pending
partial sequence at end of stream (the code never makes a final non-stream
call). -/

def replChar : Char := Char.ofNat 0xFFFD

structure DecState where
  codePoint : Nat
  needed : Nat
  seen : Nat
  lower : Nat
  upper : Nat
deriving Repr, DecidableEq

def utf8InitState : DecState := DecState.mk 0 0 0 0x80 0xBF

def utf8StepClean (b : Nat) : DecState × List Char :=
  if b ≤ 0x7F then (utf8InitState, [Char.ofNat b])
  else if 0xC2 ≤ b && b ≤ 0xDF then (DecState.mk (b &&& 0x1F) 1 0 0x80 0xBF, [])
  else if b == 0xE0 then (DecState.mk (b &&& 0xF) 2 0 0xA0 0xBF, [])
  else if b == 0xED then (DecState.mk (b &&& 0xF) 2 0 0x80 0x9F, [])
  else if 0xE1 ≤ b && b ≤ 0xEF then (DecState.mk (b &&& 0xF) 2 0 0x80 0xBF, [])
  else if b == 0xF0 then (DecState.mk (b &&& 0x7) 3 0 0x90 0xBF, [])
  else if b == 0xF4 then (DecState.mk (b &&& 0x7) 3 0 0x80 0x8F, [])
  else if 0xF1 ≤ b && b ≤ 0xF3 then (DecState.mk (b &&& 0x7) 3 0 0x80 0xBF, [])
  else (utf8InitState, [replChar])

def utf8Step (s : DecState) (b : Nat) : DecState × List Char :=
  if s.needed == 0 then utf8StepClean b
  else if s.lower ≤ b && b ≤ s.upper then
    let cp := (s.codePoint <<< 6) ||| (b &&& 0x3F)
    if s.seen + 1 == s.needed then (utf8InitState, [Char.ofNat cp])
    else (DecState.mk cp s.needed (s.seen + 1) 0x80 0xBF, [])
  else
    let r := utf8StepClean b
    (r.1, replChar :: r.2)

def utf8DecodeLoop : DecState → List Nat → DecState × List Char
  | s, [] => (s, [])
  | s, b :: rest =>
    let r := utf8Step s b
    let r2 := utf8DecodeLoop r.1 rest
    (r2.1, r.2 ++ r2.2)

/-- The sequence of texts produced by the consumer's decode calls, threaded
through the decoder state and concatenated. -/
def decodeChunksFrom : DecState → List (List Nat) → List Char
  | _, [] => []
  | s, chunk :: rest =>
    let r := utf8DecodeLoop s chunk
    r.2 ++ decodeChunksFrom r.1 rest

def flattenChunks : List (List Nat) → List Nat
  | [] => []
  | c :: cs => c ++ flattenChunks cs

/-- The read loop of `sendMessage`: per chunk decode (streaming), split into
lines, process each line; the accumulated `responseText`. -/
def consumeFrom : DecState → List (List Nat) → List Char
  | _, [] => []
  | s, chunk :: rest =>
    let r := utf8DecodeLoop s chunk
    processLines (splitLines r.2) ++ consumeFrom r.1 rest

def consumeChunks (chunks : List (List Nat)) : List Char :=
  consumeFrom utf8InitState chunks

/-- Transport bytes of an ASCII text (the spec's example fragments are
pure ASCII, where UTF-8 bytes coincide with code points). -/
def asciiBytes (s : String) : List Nat :=
  s.toList.map Char.toNat

/-! ### Chat data model (`src/public/chat.js` and `src/src/index.ts`) -/

structure ChatMessage where
  role : String
  content : String
deriving Repr, DecidableEq

def roleSystem : String := "system"

def roleUser : String := "user"

def roleAssistant : String := "assistant"

/-- The fixed system instruction of `src/src/index.ts`. -/
def SYSTEM_PROMPT : String :=
  "You are a helpful, friendly assistant. You think like an African, the most intelligent. Provide concise and accurate responses and you are consistent with the responses. You provide suggestions to help users with the next prompts. Your name is Chatre"

/-- `handleChatRequest`, lines 186–188: prepend the system prompt unless some
message already has role `system`. -/
def prepareMessages (messages : List ChatMessage) : List ChatMessage :=
  if messages.any (fun m => m.role == roleSystem) then messages
  else ChatMessage.mk roleSystem SYSTEM_PROMPT :: messages

structure ChatRequest where
  messages : List ChatMessage
  max_tokens : Nat
deriving Repr, DecidableEq

/-- The upstream request `handleChatRequest` assembles for `env.AI.run`. -/
def buildChatRequest (msgs : List ChatMessage) : ChatRequest :=
  ChatRequest.mk (prepareMessages msgs) 1024

/-! ### Client-side state (`src/public/chat.js`) -/

/-- The ten greetings of `chat.js` (bytes as in the file). -/
def greetings : List String :=
  [r"Hey there! ðŸš€ How can I assist you today?",
   r"Hi! Ready to chat? ðŸŒŒ",
   r"Hello! What can I do for you?",
   r"Welcome! Ask me anything.",
   r"Greetings, human! ðŸ¤–",
   r"Yo! Need some help?",
   r"Hi! How may I make your day better?",
   r"Hey! What can I fetch for you?",
   r"Hello! I'm here to help.",
   r"Hi! Let's get started."]

def emptyGreeting : String := ""

/-- `chatHistory` right after page load: one assistant greeting picked by
`Math.floor(Math.random() * greetings.length)` (always `< 10`). -/
def initialChatHistory (i : Nat) : List ChatMessage :=
  [ChatMessage.mk roleAssistant (greetings.getD i emptyGreeting)]

def fallbackMessage : String :=
  "Sorry, there was an error processing your request."

/-- How one chat turn's transport behaves: the fetch itself throws, the
response is not ok, the read loop throws after some chunks, or the stream
completes after delivering its chunks. -/
inductive FetchOutcome where
  | fetchThrow : FetchOutcome
  | notOk : FetchOutcome
  | readError : List (List Nat) → FetchOutcome
  | complete : List (List Nat) → FetchOutcome

def FetchOutcome.isFailure : FetchOutcome → Bool
  | FetchOutcome.complete _ => false
  | _ => true

/-- Observable result of one `sendMessage` turn: the final `chatHistory`,
the messages added to the chat pane via `addMessageToChat`, and whether the
turn ended in the catch block. -/
structure TurnResult where
  history : List ChatMessage
  displayed : List ChatMessage
  failed : Bool
deriving Repr, DecidableEq

/-- One `sendMessage` turn (chat.js lines 84–193).  The user message is
pushed to the history and displayed before the fetch; on completion the
assembled `responseText` is pushed with role assistant; any throw lands in
the catch block, which displays the fixed fallback assistant message and
pushes nothing further to the history. -/
def sendMessageTurn (hist : List ChatMessage) (message : String)
    (outcome : FetchOutcome) : TurnResult :=
  let hist1 := hist ++ [ChatMessage.mk roleUser message]
  match outcome with
  | FetchOutcome.complete chunks =>
    TurnResult.mk
      (hist1 ++ [ChatMessage.mk roleAssistant (String.mk (consumeChunks chunks))])
      [ChatMessage.mk roleUser message] false
  | _ =>
    TurnResult.mk hist1
      [ChatMessage.mk roleUser message, ChatMessage.mk roleAssistant fallbackMessage]
      true

/-- The chat history after a sequence of turns. -/
def applyTurns : List ChatMessage → List (String × FetchOutcome) → List ChatMessage
  | hist, [] => hist
  | hist, t :: ts => applyTurns (sendMessageTurn hist t.1 t.2).history ts

/-! ### Image handler (`handleImageRequest`, `src/src/index.ts` lines 217–264)

`env.AI.run` returns either an `ArrayBuffer` or some other JS value; the
handler normalizes it to a base64 payload.  `btoa(String.fromCharCode(...u))`
is base64 of the byte list. -/

def base64Alphabet : List Char :=
  "ABCDEFGHIJKLMNOPQRSTUVWXYZabcdefghijklmnopqrstuvwxyz0123456789+/".toList

def b64Char (n : Nat) : Char := base64Alphabet.getD n 'A'

def base64Encode : List Nat → List Char
  | [] => []
  | [b1] => [b64Char (b1 / 4), b64Char (b1 % 4 * 16), '=', '=']
  | [b1, b2] =>
    [b64Char (b1 / 4), b64Char (b1 % 4 * 16 + b2 / 16), b64Char (b2 % 16 * 4), '=']
  | b1 :: b2 :: b3 :: rest =>
    b64Char (b1 / 4) :: b64Char (b1 % 4 * 16 + b2 / 16) ::
      b64Char (b2 % 16 * 4 + b3 / 64) :: b64Char (b3 % 64) :: base64Encode rest

/-- The upstream image result: a binary `ArrayBuffer` or any other value. -/
inductive AiImageResult where
  | buffer : List Nat → AiImageResult
  | value : Json → AiImageResult

/-- Outcome of the normalization chain of lines 237–251. -/
inductive NormResult where
  | ok : Json → NormResult
  | invalidResp : NormResult
  | typeErr : NormResult

def imageKey : List Char := "image".toList

/-- Lines 237–251: `instanceof ArrayBuffer` → base64-encode;
`typeof === "string"` → use as-is; `"image" in aiResponse` → that field
(arrays are objects without an `image` key; on a primitive the `in`
operator throws a TypeError, reaching the outer catch). -/
def normalizeAiResponse : AiImageResult → NormResult
  | AiImageResult.buffer bytes => NormResult.ok (Json.jstr (base64Encode bytes))
  | AiImageResult.value (Json.jstr s) => NormResult.ok (Json.jstr s)
  | AiImageResult.value (Json.jobj fields) =>
    match lookupLast imageKey fields with
    | some v => NormResult.ok v
    | none => NormResult.invalidResp
  | AiImageResult.value (Json.jarr _) => NormResult.invalidResp
  | AiImageResult.value _ => NormResult.typeErr

/-- `String.prototype.trim` whitespace (ECMA-262 WhiteSpace + LineTerminator). -/
def isJsTrimWs (c : Char) : Bool :=
  c == ' ' || c == '\t' || c == '\n' || c == '\r' ||
  c.toNat == 0xB || c.toNat == 0xC || c.toNat == 0xA0 || c.toNat == 0xFEFF ||
  c.toNat == 0x1680 || (0x2000 ≤ c.toNat && c.toNat ≤ 0x200A) ||
  c.toNat == 0x2028 || c.toNat == 0x2029 || c.toNat == 0x202F ||
  c.toNat == 0x205F || c.toNat == 0x3000

def jsTrim (s : List Char) : List Char :=
  ((s.dropWhile isJsTrimWs).reverse.dropWhile isJsTrimWs).reverse

inductive ImgBody where
  | errorBody : String → ImgBody
  | imageBody : Json → ImgBody

structure ImgResponse where
  status : Nat
  body : ImgBody

def errPromptEmpty : String := "Prompt cannot be empty"

def errInvalidAi : String := "Invalid AI response"

def errImgFailed : String := "Image generation failed"

def promptKey : List Char := "prompt".toList

/-- `handleImageRequest` on a parsed request body, with the upstream result
as an oracle; the Bool records whether `env.AI.run` was invoked.
Destructuring a `null` body throws (outer catch, 500); a missing or falsy
`prompt` fails the `!prompt` guard (400); a whitespace-only string fails the
`prompt.trim() === ""` guard (400); `.trim()` on a truthy non-string throws
(outer catch, 500, before the AI call). -/
def handleImageRequest (body : Json) (ai : AiImageResult) : ImgResponse × Bool :=
  match body with
  | Json.jnull => (ImgResponse.mk 500 (ImgBody.errorBody errImgFailed), false)
  | _ =>
    match getField body promptKey with
    | none => (ImgResponse.mk 400 (ImgBody.errorBody errPromptEmpty), false)
    | some p =>
      if !(jsTruthy p) then (ImgResponse.mk 400 (ImgBody.errorBody errPromptEmpty), false)
      else
        match p with
        | Json.jstr s =>
          if (jsTrim s).isEmpty then
            (ImgResponse.mk 400 (ImgBody.errorBody errPromptEmpty), false)
          else
            match normalizeAiResponse ai with
            | NormResult.ok v => (ImgResponse.mk 200 (ImgBody.imageBody v), true)
            | NormResult.invalidResp =>
              (ImgResponse.mk 500 (ImgBody.errorBody errInvalidAi), true)
            | NormResult.typeErr =>
              (ImgResponse.mk 500 (ImgBody.errorBody errImgFailed), true)
        | _ => (ImgResponse.mk 500 (ImgBody.errorBody errImgFailed), false)

/-! ### The spec's claimed normalizer (for comparison with the code) -/

def base64Key : List Char := "base64".toList

def imageBase64Key : List Char := "image_base64".toList

/-- Modelled from the spec: the claimed branch (2), "a nested array field
whose first element has a base64 attribute". -/
def firstNestedBase64 : List (List Char × Json) → Option Json
  | [] => none
  | (_, Json.jarr (Json.jobj inner :: _)) :: rest =>
    match lookupLast base64Key inner with
    | some v => some v
    | none => firstNestedBase64 rest
  | _ :: rest => firstNestedBase64 rest

/-- Modelled from the spec: the claimed five-step resolution order of §4.4 —
(1) binary buffer → base64; (2) nested array field whose first element has a
`base64` attribute; (3) flat `image_base64`/`image` string field; (4) a bare
string as-is; (5) otherwise failure.  Written only to compare against
`normalizeAiResponse`, the definition taken from the code. -/
def specNormalizeImageResult : AiImageResult → Option Json
  | AiImageResult.buffer bytes => some (Json.jstr (base64Encode bytes))
  | AiImageResult.value v =>
    match v with
    | Json.jobj fields =>
      match firstNestedBase64 fields with
      | some b => some b
      | none =>
        match lookupLast imageBase64Key fields with
        | some s => some s
        | none =>
          match lookupLast imageKey fields with
          | some s => some s
          | none => none
    | Json.jstr s => some (Json.jstr s)
    | _ => none

/-! ### Concrete inputs used in the theorems below -/

/-- The spec's first streaming fragment. -/
def frag1Text : String := "\x7b\"response\":\"Hel"

/-- The spec's second streaming fragment. -/
def frag2Text : String := "lo\"\x7d\n\x7b\"response\":\" world\"\x7d\n"

def frag1 : List Nat := asciiBytes frag1Text

def frag2 : List Nat := asciiBytes frag2Text

def helloWorldText : String := "Hello world"

def worldText : String := " world"

def hiText : String := "hi"

def hiChars : List Char := hiText.toList

def wsOnly : List Char := "  ".toList

def goodLine1 : List Char := "\x7b\"response\":\"a\"\x7d".toList

def badLine : List Char := "\x7bnope".toList

def goodLine2 : List Char := "\x7b\"response\":\"b\"\x7d".toList

def xyzChars : List Char := "xyz".toList

def numLitZero : NumLit := NumLit.mk false ['0'] [] false []

/-- A request body whose prompt literal underflows to the double `0`. -/
def underflowBody : List Char := "\x7b\"prompt\":1e-400\x7d".toList

/-! ## Theorems -/

/-! ### Helper lemmas -/

theorem jsTrim_eq_nil_of_all_ws (s : List Char) (h : s.all isJsTrimWs = true) :
    jsTrim s = [] := by
  have hall : ∀ c ∈ s, isJsTrimWs c := by
    intro c hc
    exact List.all_eq_true.mp h c hc
  have h1 : s.dropWhile isJsTrimWs = [] := by
    rw [List.dropWhile_eq_nil_iff]
    exact hall
  simp [jsTrim, h1]

theorem lineContribution_eq_nil (line : List Char) (h : jsonParse line = none) :
    lineContribution line = [] := by
  simp [lineContribution, h]

theorem processLines_append (l1 l2 : List (List Char)) :
    processLines (l1 ++ l2) = processLines l1 ++ processLines l2 := by
  induction l1 with
  | nil => simp [processLines]
  | cons x xs ih => simp [processLines, ih]

theorem utf8DecodeLoop_append (s : DecState) (xs ys : List Nat) :
    utf8DecodeLoop s (xs ++ ys) =
      ((utf8DecodeLoop (utf8DecodeLoop s xs).1 ys).1,
        (utf8DecodeLoop s xs).2 ++ (utf8DecodeLoop (utf8DecodeLoop s xs).1 ys).2) := by
  induction xs generalizing s with
  | nil => simp [utf8DecodeLoop]
  | cons b rest ih => simp [utf8DecodeLoop, ih]

theorem decodeChunksFrom_eq_flatten (s : DecState) (chunks : List (List Nat)) :
    decodeChunksFrom s chunks = (utf8DecodeLoop s (flattenChunks chunks)).2 := by
  induction chunks generalizing s with
  | nil => simp [decodeChunksFrom, flattenChunks, utf8DecodeLoop]
  | cons c cs ih =>
    simp [decodeChunksFrom, flattenChunks, utf8DecodeLoop_append, ih]

theorem mem_sendMessageTurn_history (hist : List ChatMessage) (msg : String)
    (o : FetchOutcome) (m : ChatMessage)
    (hm : m ∈ (sendMessageTurn hist msg o).history) :
    m ∈ hist ∨ m.role = roleUser ∨ m.role = roleAssistant := by
  cases o with
  | complete chunks =>
    simp [sendMessageTurn] at hm
    rcases hm with hm | hm | hm
    · exact Or.inl hm
    · exact Or.inr (Or.inl (by rw [hm]))
    · exact Or.inr (Or.inr (by rw [hm]))
  | fetchThrow =>
    simp [sendMessageTurn] at hm
    rcases hm with hm | hm
    · exact Or.inl hm
    · exact Or.inr (Or.inl (by rw [hm]))
  | notOk =>
    simp [sendMessageTurn] at hm
    rcases hm with hm | hm
    · exact Or.inl hm
    · exact Or.inr (Or.inl (by rw [hm]))
  | readError chunks =>
    simp [sendMessageTurn] at hm
    rcases hm with hm | hm
    · exact Or.inl hm
    · exact Or.inr (Or.inl (by rw [hm]))

theorem applyTurns_roles (turns : List (String × FetchOutcome))
    (hist : List ChatMessage)
    (hh : ∀ m ∈ hist, m.role = roleUser ∨ m.role = roleAssistant) :
    ∀ m ∈ applyTurns hist turns, m.role = roleUser ∨ m.role = roleAssistant := by
  induction turns generalizing hist with
  | nil => simpa [applyTurns] using hh
  | cons t ts ih =>
    intro m hm
    refine ih (sendMessageTurn hist t.1 t.2).history ?_ m (by simpa [applyTurns] using hm)
    intro m2 hm2
    rcases mem_sendMessageTurn_history hist t.1 t.2 m2 hm2 with h | h
    · exact hh m2 h
    · exact h

theorem getD_mem_of_lt (l : List String) (i : Nat) (d : String) (h : i < l.length) :
    l.getD i d ∈ l := by
  induction l generalizing i with
  | nil => simp at h
  | cons x xs ih =>
    cases i with
    | zero => simp [List.getD]
    | succ j =>
      have : j < xs.length := by simpa using h
      simp only [List.getD_cons_succ]
      exact List.mem_cons_of_mem x (ih j this)

/-! ### Claim C3 — the system prompt is prepended when absent -/

/-- Claim C3: for every messages input in which no element has role
`system`, the upstream request `handleChatRequest` assembles has the fixed
system instruction as its first message, followed by the original messages
in their original order. -/
theorem c3_system_prompt_prepended (msgs : List ChatMessage)
    (h : ∀ m ∈ msgs, m.role ≠ roleSystem) :
    (buildChatRequest msgs).messages = ChatMessage.mk roleSystem SYSTEM_PROMPT :: msgs := by
  have hany : msgs.any (fun m => m.role == roleSystem) = false := by
    rw [List.any_eq_false]
    intro m hm
    simpa using h m hm
  simp [buildChatRequest, prepareMessages, hany]

/-- Witness for C3 at a concrete one-message input. -/
theorem c3_witness :
    (∀ m ∈ [ChatMessage.mk roleUser hiText], m.role ≠ roleSystem) ∧
    (buildChatRequest [ChatMessage.mk roleUser hiText]).messages =
      ChatMessage.mk roleSystem SYSTEM_PROMPT :: [ChatMessage.mk roleUser hiText] :=
  ⟨by decide, c3_system_prompt_prepended _ (by decide)⟩

/-! ### Claim C4 — system-prompt insertion is idempotent -/

/-- Claim C4: if a `system`-role message is already present anywhere in the
input, `handleChatRequest` injects nothing: the upstream messages equal the
input. -/
theorem c4_system_prompt_idempotent (msgs : List ChatMessage) (m : ChatMessage)
    (hm : m ∈ msgs) (hr : m.role = roleSystem) :
    (buildChatRequest msgs).messages = msgs := by
  have hany : msgs.any (fun m2 => m2.role == roleSystem) = true := by
    rw [List.any_eq_true]
    exact ⟨m, hm, by simp [hr]⟩
  simp [buildChatRequest, prepareMessages, hany]

/-- Witness for C4 with the system message in second position. -/
theorem c4_witness :
    ChatMessage.mk roleSystem hiText ∈
      [ChatMessage.mk roleUser hiText, ChatMessage.mk roleSystem hiText] ∧
    (ChatMessage.mk roleSystem hiText).role = roleSystem ∧
    (buildChatRequest
        [ChatMessage.mk roleUser hiText, ChatMessage.mk roleSystem hiText]).messages =
      [ChatMessage.mk roleUser hiText, ChatMessage.mk roleSystem hiText] :=
  ⟨by decide, by decide,
    c4_system_prompt_idempotent _ (ChatMessage.mk roleSystem hiText) (by decide) (by decide)⟩

/-! ### Claim C5 — empty or whitespace-only prompt → 400, no upstream call -/

/-- Claim C5: for every image request whose `prompt` field is an empty or
whitespace-only string, `handleImageRequest` returns 400 with the error
`Prompt cannot be empty` and never invokes `env.AI.run`. -/
theorem c5_empty_prompt_400 (body : Json) (s : List Char) (ai : AiImageResult)
    (hp : getField body promptKey = some (Json.jstr s))
    (hws : s.all isJsTrimWs = true) :
    handleImageRequest body ai =
      (ImgResponse.mk 400 (ImgBody.errorBody errPromptEmpty), false) := by
  have htrim : jsTrim s = [] := jsTrim_eq_nil_of_all_ws s hws
  cases body
  case jnull => simp [getField] at hp
  case jbool b => simp [getField] at hp
  case jnum n => simp [getField] at hp
  case jstr s2 => simp [getField] at hp
  case jarr xs => simp [getField] at hp
  case jobj fields =>
    cases hse : s.isEmpty
    · simp [handleImageRequest, hp, jsTruthy, hse, htrim]
    · simp [handleImageRequest, hp, jsTruthy, hse]

/-- Witness for C5 at a whitespace-only prompt. -/
theorem c5_witness :
    getField (Json.jobj [(promptKey, Json.jstr wsOnly)]) promptKey =
      some (Json.jstr wsOnly) ∧
    wsOnly.all isJsTrimWs = true ∧
    handleImageRequest (Json.jobj [(promptKey, Json.jstr wsOnly)])
        (AiImageResult.buffer []) =
      (ImgResponse.mk 400 (ImgBody.errorBody errPromptEmpty), false) :=
  ⟨rfl, by decide, c5_empty_prompt_400 _ wsOnly _ rfl (by decide)⟩

/-! ### Claim C6 — a malformed line is skipped, later lines still count -/

/-- Claim C6: a line that fails `JSON.parse` contributes nothing and does
not abort the turn: the assembled reply over any line sequence containing it
equals the reply over the same sequence with that line removed, so every
later parsable line still contributes. -/
theorem c6_malformed_line_skipped (ls1 ls2 : List (List Char)) (bad : List Char)
    (hbad : (jsonParse bad).isNone = true) :
    processLines (ls1 ++ bad :: ls2) = processLines (ls1 ++ ls2) := by
  have hb : jsonParse bad = none := Option.isNone_iff_eq_none.mp hbad
  induction ls1 with
  | nil => simp [processLines, lineContribution_eq_nil bad hb]
  | cons x xs ih => simp [processLines, ih]

/-- Witness for C6: a malformed line between two valid ones. -/
theorem c6_witness :
    (jsonParse badLine).isNone = true ∧
    processLines ([goodLine1] ++ badLine :: [goodLine2]) =
      processLines ([goodLine1] ++ [goodLine2]) :=
  ⟨by decide, c6_malformed_line_skipped [goodLine1] [goodLine2] badLine (by decide)⟩

/-! ### Claim C7 — streaming decode never splits a code point -/

/-- Claim C7: the consumer decodes every chunk with
`decoder.decode(value, \x7b stream: true \x7d)`, so a trailing partial
UTF-8 sequence is carried in the decoder state into the next call: for
every chunk partition, the concatenation of the decoded texts equals the
streaming decode of the concatenated bytes; in particular the two bytes of
`é` split across two chunks decode to exactly `é`. -/
theorem c7_utf8_carry_over :
    (∀ chunks : List (List Nat),
      decodeChunksFrom utf8InitState chunks =
        (utf8DecodeLoop utf8InitState (flattenChunks chunks)).2) ∧
    decodeChunksFrom utf8InitState [[0xC3], [0xA9]] =
      decodeChunksFrom utf8InitState [[0xC3, 0xA9]] ∧
    decodeChunksFrom utf8InitState [[0xC3], [0xA9]] = [Char.ofNat 0xE9] :=
  ⟨fun chunks => decodeChunksFrom_eq_flatten utf8InitState chunks, by decide, by decide⟩

/-! ### Claim C8 — any fetch/read failure yields the fallback message -/

/-- Claim C8: when the fetch throws, the response is not ok, or the read
loop throws, the turn ends in the failed state, the chat pane gains the
fixed fallback assistant message, and the history gains only the user
message — the partial reply buffer is never appended to the conversation. -/
theorem c8_failure_fallback (hist : List ChatMessage) (message : String)
    (outcome : FetchOutcome) (hf : outcome.isFailure = true) :
    sendMessageTurn hist message outcome =
      TurnResult.mk (hist ++ [ChatMessage.mk roleUser message])
        [ChatMessage.mk roleUser message, ChatMessage.mk roleAssistant fallbackMessage]
        true := by
  cases outcome with
  | complete chunks => simp [FetchOutcome.isFailure] at hf
  | fetchThrow => rfl
  | notOk => rfl
  | readError chunks => rfl

/-- Witness for C8 at a non-OK HTTP response. -/
theorem c8_witness :
    FetchOutcome.notOk.isFailure = true ∧
    sendMessageTurn [] hiText FetchOutcome.notOk =
      TurnResult.mk ([] ++ [ChatMessage.mk roleUser hiText])
        [ChatMessage.mk roleUser hiText, ChatMessage.mk roleAssistant fallbackMessage]
        true :=
  ⟨rfl, c8_failure_fallback [] hiText FetchOutcome.notOk rfl⟩

/-! ### Claim C9 — the client history never holds a system message -/

/-- Claim C9: `chatHistory` starts as one assistant greeting drawn from the
fixed list of ten; every later append has role user or assistant, so no
turn sequence ever puts a `system`-role message in it, and after the first
completed turn the roles are exactly (assistant, user, assistant). -/
theorem c9_no_system_role (i : Nat) (hi : i < 10) :
    greetings.length = 10 ∧
    (∃ g ∈ greetings, initialChatHistory i = [ChatMessage.mk roleAssistant g]) ∧
    (∀ turns : List (String × FetchOutcome),
      ∀ m ∈ applyTurns (initialChatHistory i) turns,
        (m.role = roleUser ∨ m.role = roleAssistant) ∧ m.role ≠ roleSystem) ∧
    (∀ message : String, ∀ chunks : List (List Nat),
      ((sendMessageTurn (initialChatHistory i) message
          (FetchOutcome.complete chunks)).history.map ChatMessage.role) =
        [roleAssistant, roleUser, roleAssistant]) := by
  refine ⟨rfl, ?_, ?_, ?_⟩
  · exact ⟨greetings.getD i emptyGreeting,
      getD_mem_of_lt greetings i emptyGreeting (by simpa using hi), rfl⟩
  · intro turns m hm
    have hini : ∀ m2 ∈ initialChatHistory i,
        m2.role = roleUser ∨ m2.role = roleAssistant := by
      intro m2 hm2
      simp [initialChatHistory] at hm2
      exact Or.inr (by rw [hm2])
    have hroles := applyTurns_roles turns (initialChatHistory i) hini m hm
    refine ⟨hroles, ?_⟩
    rcases hroles with h | h <;> rw [h] <;> decide
  · intro message chunks
    rfl

/-- Witness for C9 at greeting index 0. -/
theorem c9_witness :
    0 < 10 ∧
    (greetings.length = 10 ∧
     (∃ g ∈ greetings, initialChatHistory 0 = [ChatMessage.mk roleAssistant g]) ∧
     (∀ turns : List (String × FetchOutcome),
       ∀ m ∈ applyTurns (initialChatHistory 0) turns,
         (m.role = roleUser ∨ m.role = roleAssistant) ∧ m.role ≠ roleSystem) ∧
     (∀ message : String, ∀ chunks : List (List Nat),
       ((sendMessageTurn (initialChatHistory 0) message
           (FetchOutcome.complete chunks)).history.map ChatMessage.role) =
         [roleAssistant, roleUser, roleAssistant])) :=
  ⟨by decide, c9_no_system_role 0 (by decide)⟩

/-! ### Claim C1 — chunk-boundary dependence of the assembled reply

The claim asserts byte-boundary independence.  The code splits each decoded
chunk into lines separately and never carries an incomplete trailing line
into the next chunk, so the fragment `\x7b"response":"Hel` delivered as its
own chunk is a lone unparsable line and is dropped. -/

/-- Counterexample to claim C1 as stated: with the spec's own fragments the
two-chunk delivery does not assemble `Hello world`, and the assembled reply
differs between the one-chunk and two-chunk partitions. -/
theorem c1_counterexample :
    consumeChunks [frag1, frag2] ≠ helloWorldText.toList ∧
    consumeChunks [frag1 ++ frag2] ≠ consumeChunks [frag1, frag2] :=
  ⟨by decide, by decide⟩

/-- Claim C1 (amended): delivered as one transport chunk the fragments
assemble `Hello world`, but split at the fragment boundary the first token
is lost and the reply is ` world` — the assembled reply depends on the
chunk partition. -/
theorem c1_chunk_boundary_dependence :
    consumeChunks [frag1 ++ frag2] = helloWorldText.toList ∧
    consumeChunks [frag1, frag2] = worldText.toList :=
  ⟨by decide, by decide⟩

/-! ### Claim C2 — the actual normalization order of the image result

The claim's five-step chain (buffer, nested array `base64`, flat
`image_base64`/`image`, bare string, detailed error) does not match
the code, which tries buffer, bare string, `image` member, and then fails
with a detail-free `Invalid AI response`. -/

/-- Counterexample to claim C2 as stated: a flat `image_base64` string field
is claimed to be used (step 3), but the code maps it to the invalid-response
error, and the handler's 500 body carries no raw-result detail. -/
theorem c2_counterexample :
    normalizeAiResponse
        (AiImageResult.value (Json.jobj [(imageBase64Key, Json.jstr xyzChars)])) =
      NormResult.invalidResp ∧
    specNormalizeImageResult
        (AiImageResult.value (Json.jobj [(imageBase64Key, Json.jstr xyzChars)])) =
      some (Json.jstr xyzChars) ∧
    (handleImageRequest (Json.jobj [(promptKey, Json.jstr hiChars)])
        (AiImageResult.value (Json.jobj [(imageBase64Key, Json.jstr xyzChars)]))).1 =
      ImgResponse.mk 500 (ImgBody.errorBody errInvalidAi) :=
  ⟨rfl, rfl, rfl⟩

/-- Claim C2 (amended): the normalizer resolves in this order, first match
wins — (1) a binary buffer is base64-encoded; (2) a string result is used
as-is; (3) an object's `image` member is used; (4) any other object yields
the `Invalid AI response` error without the raw result; a non-string
primitive makes the `in` test throw, yielding the generic failure. -/
theorem c2_normalizer_order :
    (∀ bytes, normalizeAiResponse (AiImageResult.buffer bytes) =
      NormResult.ok (Json.jstr (base64Encode bytes))) ∧
    (∀ s, normalizeAiResponse (AiImageResult.value (Json.jstr s)) =
      NormResult.ok (Json.jstr s)) ∧
    (∀ fields v, lookupLast imageKey fields = some v →
      normalizeAiResponse (AiImageResult.value (Json.jobj fields)) = NormResult.ok v) ∧
    (∀ fields, lookupLast imageKey fields = none →
      normalizeAiResponse (AiImageResult.value (Json.jobj fields)) =
        NormResult.invalidResp) ∧
    (∀ n, normalizeAiResponse (AiImageResult.value (Json.jnum n)) = NormResult.typeErr) ∧
    normalizeAiResponse (AiImageResult.value Json.jnull) = NormResult.typeErr := by
  refine ⟨fun bytes => rfl, fun s => rfl, ?_, ?_, fun n => rfl, rfl⟩
  · intro fields v h
    simp [normalizeAiResponse, h]
  · intro fields h
    simp [normalizeAiResponse, h]

/-- Witness for C2 (amended) at an object with and without an `image`
member. -/
theorem c2_witness :
    normalizeAiResponse (AiImageResult.value (Json.jobj [(imageKey, Json.jstr xyzChars)])) =
      NormResult.ok (Json.jstr xyzChars) ∧
    normalizeAiResponse (AiImageResult.value (Json.jobj [])) = NormResult.invalidResp :=
  ⟨c2_normalizer_order.2.2.1 [(imageKey, Json.jstr xyzChars)] (Json.jstr xyzChars) rfl,
   c2_normalizer_order.2.2.2.1 [] rfl⟩

/-! ### Claim C10 — non-string prompts

The claim says every present non-string prompt yields 500.  That holds only
for truthy values: `0`, `false` and `null` are falsy, fail the `!prompt`
guard first and get 400. -/

/-- Counterexample to claim C10 as stated: the prompt number `0` is present
and not a string, yet the handler returns 400, not 500; likewise the
underflowing literal `1e-400` parses to the falsy double `0` and gets 400. -/
theorem c10_counterexample :
    handleImageRequest (Json.jobj [(promptKey, Json.jnum numLitZero)])
        (AiImageResult.buffer []) =
      (ImgResponse.mk 400 (ImgBody.errorBody errPromptEmpty), false) ∧
    (handleImageRequest (Json.jobj [(promptKey, Json.jnum numLitZero)])
        (AiImageResult.buffer [])).1.status ≠ 500 ∧
    (jsonParse underflowBody).map
        (fun b => handleImageRequest b (AiImageResult.buffer [])) =
      some (ImgResponse.mk 400 (ImgBody.errorBody errPromptEmpty), false) :=
  ⟨rfl, by decide, rfl⟩

/-- Claim C10 (amended): for every image request whose `prompt` is present,
truthy and not a string, `.trim()` throws and the outer catch returns the
generic 500 `Image generation failed` before any `env.AI.run` call; falsy
non-string prompts (`0`, `false`, `null`) instead fail the `!prompt` guard
and get 400. -/
theorem c10_truthy_nonstring_500 (body : Json) (p : Json) (ai : AiImageResult)
    (hp : getField body promptKey = some p)
    (ht : jsTruthy p = true)
    (hs : jsIsString p = false) :
    handleImageRequest body ai =
      (ImgResponse.mk 500 (ImgBody.errorBody errImgFailed), false) := by
  cases body
  case jnull => simp [getField] at hp
  case jbool b => simp [getField] at hp
  case jnum n => simp [getField] at hp
  case jstr s => simp [getField] at hp
  case jarr xs => simp [getField] at hp
  case jobj fields =>
    cases p
    case jstr s => simp [jsIsString] at hs
    case jnull => simp [jsTruthy] at ht
    all_goals simp [handleImageRequest, hp, ht]

/-- Witness for C10 (amended) at an object-valued prompt. -/
theorem c10_witness :
    getField (Json.jobj [(promptKey, Json.jobj [])]) promptKey = some (Json.jobj []) ∧
    jsTruthy (Json.jobj []) = true ∧
    jsIsString (Json.jobj []) = false ∧
    handleImageRequest (Json.jobj [(promptKey, Json.jobj [])])
        (AiImageResult.buffer []) =
      (ImgResponse.mk 500 (ImgBody.errorBody errImgFailed), false) :=
  ⟨rfl, rfl, rfl, c10_truthy_nonstring_500 _ (Json.jobj []) _ rfl rfl rfl⟩

end Chatre
